import Mathlib

/-!
Verification of the `egui_heatmap` multi-heatmap widget core
(`src/multimap.rs`, `src/colors.rs`) against its natural-language
specification.

Conventions of the shallow embedding:
* Rust `usize` becomes `Nat`, `i32` becomes `Int` (machine overflow and
  Rust panics on out-of-range indexing are outside the modelled fragment;
  every claim is settled on inputs where the Rust code does not panic).
* `f32` quantities (colorbar bounds, gradient inverse lookup) are idealized
  as `ℚ`; the `f32::NAN` result of `Gradient::fetch_value` is modelled as
  `Option.none`.
* `HashMap<Key, bool>` becomes an association list with lookup defaulting
  to `true`, `HashSet<CoordinatePoint>` becomes a `Finset`.
* The text-overlay machinery (fonts, titles, corner labels) is an external
  capability per the specification and is not part of the modelled
  fragment; no claim below depends on it.
-/

namespace EguiHeatmap

/-- Point in the user-given coordinate system (source: `CoordinatePoint`). -/
structure CoordinatePoint where
  x : Int
  y : Int
deriving DecidableEq, Repr

/-- Offset between two points, in user-given coordinates (source: `CoordinateVec`).
Components are `usize` in the source. -/
structure CoordinateVec where
  x : Nat
  y : Nat
deriving DecidableEq, Repr

/-- A raster-pixel position handed to the hit-test (source: `MultiMapPoint`). -/
structure MultiMapPoint where
  x : Nat
  y : Nat
deriving DecidableEq, Repr

/-- Corner of the shown rectangle (source: `ShowPoint`, fields are `i32`). -/
structure ShowPoint where
  x : Int
  y : Int
deriving DecidableEq, Repr

/-- The currently shown window, half-open at `right_bottom`
(source: `ShowRect`). -/
structure ShowRect where
  left_top : ShowPoint
  right_bottom : ShowPoint
deriving DecidableEq, Repr

/-- Rust `ShowRect::default()`: all components zero. -/
def ShowRect.zero : ShowRect :=
  { left_top := { x := 0, y := 0 }, right_bottom := { x := 0, y := 0 } }

/-- Half-open rectangle in user-given coordinates (source: `CoordinateRect`). -/
structure CoordinateRect where
  left_top : CoordinatePoint
  right_bottom : CoordinatePoint
deriving DecidableEq, Repr

/-- Source: `&CoordinatePoint - &CoordinatePoint`, whose components are cast
`as usize`; the cast is faithful for the non-negative differences the code
produces. -/
def CoordinatePoint.sub (p q : CoordinatePoint) : CoordinateVec :=
  { x := (p.x - q.x).toNat, y := (p.y - q.y).toNat }

/-- Source: `CoordinateRect::delta`. -/
def CoordinateRect.delta (r : CoordinateRect) : CoordinateVec :=
  r.right_bottom.sub r.left_top

/-- Source: `&CoordinatePoint + CoordinateVec`. -/
def CoordinatePoint.addVec (p : CoordinatePoint) (v : CoordinateVec) : CoordinatePoint :=
  { x := p.x + v.x, y := p.y + v.y }

/-- Source: `&ShowRect - &CoordinatePoint` applied at the origin, converting a
`ShowRect` into a `CoordinateRect` (the code always subtracts `{x:0, y:0}`). -/
def ShowRect.toCoordinateRect (r : ShowRect) : CoordinateRect :=
  { left_top := { x := r.left_top.x, y := r.left_top.y },
    right_bottom := { x := r.right_bottom.x, y := r.right_bottom.y } }

/-- A data block: rectangular grid of colors anchored at a coordinate
(source: `Data<Color>`; the `overlay` field is outside the modelled
fragment). -/
structure Data (Color : Type) where
  width : Nat
  height : Nat
  data : List Color
  first_point_coordinate : CoordinatePoint
deriving DecidableEq, Repr

/-- Source: `Data::lookup`. -/
def Data.lookup {Color : Type} (d : Data Color) (point : CoordinatePoint) : Option Color :=
  if point.x < d.first_point_coordinate.x ∨ point.y < d.first_point_coordinate.y ∨
      (point.x - d.first_point_coordinate.x).toNat ≥ d.width ∨
      (point.y - d.first_point_coordinate.y).toNat ≥ d.height then
    none
  else
    let v := point.sub d.first_point_coordinate
    d.data[v.x + v.y * d.width]?

/-- Source: `Data::bounding_box`. -/
def Data.bounding_box {Color : Type} (d : Data Color) : CoordinateRect :=
  let left_top := d.first_point_coordinate
  { left_top := left_top,
    right_bottom := left_top.addVec { x := d.width, y := d.height } }

/-- Color plus thickness (source: `ColorWithThickness<Color>`). -/
structure ColorWithThickness (Color : Type) where
  color : Color
  thickness : Nat
deriving DecidableEq, Repr

/-- Error tags returned by `render` (source: `RenderProblem`; the
`ClipboardIssue` payload is a plain string). -/
inductive RenderProblem where
  | CountIsZero
  | WidthSmallerThanColorBar
  | NoData
  | ClipboardIssue (msg : String)
deriving DecidableEq, Repr

/-- Hit-test result (source: `MultiMapPosition<Key>`); the colorbar value is
the idealized `Gradient::fetch_value` result. -/
inductive MultiMapPosition (Key : Type) where
  | NotHovering
  | NoData (key : Key) (pos : CoordinatePoint)
  | Pixel (key : Key) (pos : CoordinatePoint)
  | Colorbar (value : Option ℚ)
deriving DecidableEq, Repr

/-- Session state (source: `MultimapState<Key>`): visibility map with
absent-defaults-to-visible, selected points, optional shown rectangle. -/
structure MultimapState (Key : Type) [DecidableEq Key] where
  to_plot : List (Key × Bool)
  selected : Finset CoordinatePoint
  shown_rectangle : Option ShowRect

/-- Lookup in the visibility map with absent keys defaulting to visible
(source: `to_plot.get(&d.key).cloned().unwrap_or(true)`). -/
def lookupVisible {Key : Type} [DecidableEq Key]
    (to_plot : List (Key × Bool)) (key : Key) : Bool :=
  ((to_plot.find? (fun kv => decide (kv.1 = key))).map Prod.snd).getD true

/-- Source: `MultimapState::to_plot(key)`. -/
def MultimapState.toPlot {Key : Type} [DecidableEq Key]
    (s : MultimapState Key) (key : Key) : Bool :=
  lookupVisible s.to_plot key

/-- The widget core (source: `ShowMultiMap<Key, Color>`); the colorbar's
gradient is its stop list, bundled with its thickness and `(lower, upper)`
value bounds. -/
structure ShowMultiMap (Key Color : Type) where
  data : List (Key × Data Color)
  boundary_between_data : ColorWithThickness Color
  colorbar : Option (List Color × Nat × (ℚ × ℚ))
  background : Color
  boundary_unselected : ColorWithThickness Color
  boundary_selected : Color
  boundary_factor_min : Nat
  drag_area : Option ((CoordinatePoint × CoordinatePoint) × CoordinatePoint)

/-- The visible datasets in registration order (source: the `filter_map` over
`self.data` in `render` and `convert_multimap2bitmap`; `render` reverses the
list and then pops from its end cell by cell, which visits it in the original
order, so both functions consume the same ordered list). -/
def visibleData {Key Color : Type} [DecidableEq Key]
    (m : ShowMultiMap Key Color) (s : MultimapState Key) : List (Key × Data Color) :=
  m.data.filter (fun kd => s.toPlot kd.1)

/-- Source: `compute_columns_rows`, the `while data_rows * data_columns < count`
loop, unrolled with explicit fuel (the loop needs at most one iteration but
the fuel bound `count` is proved sufficient below). -/
def findRows : Nat → Nat → Nat → Nat → Nat
  | 0, _, _, r => r
  | fuel + 1, c, count, r => if r * c < count then findRows fuel c count (r + 1) else r

/-- Search loop for the exact ceiling square root: the least `c ≥ start` with
`n ≤ c·c`, with explicit fuel. -/
def ceilSqrtAux : Nat → Nat → Nat → Nat
  | 0, _, c => c
  | fuel + 1, n, c => if n ≤ c * c then c else ceilSqrtAux fuel n (c + 1)

/-- Exact ceiling square root (least `c` with `n ≤ c·c`), modelling the
source's `(count as f64).sqrt().ceil() as usize` (exact for every `count`
small enough that `f64` arithmetic is exact, which covers all realistic
dataset counts). -/
def ceilSqrt (n : Nat) : Nat := ceilSqrtAux n n 0

/-- Source: `compute_columns_rows` — grid layout from a dataset count. -/
def compute_columns_rows (count : Nat) : Nat × Nat :=
  if count = 0 then (0, 0)
  else
    let data_columns := ceilSqrt count
    (data_columns, findRows count data_columns count (count / data_columns))

theorem ceilSqrtAux_spec (fuel n c : Nat) (hfuel : n ≤ (c + fuel) * (c + fuel)) :
    let R := ceilSqrtAux fuel n c
    n ≤ R * R ∧ c ≤ R ∧ ∀ c2, c ≤ c2 → n ≤ c2 * c2 → R ≤ c2 := by
  induction fuel generalizing c with
  | zero =>
    simp only [ceilSqrtAux]
    simp only [Nat.add_zero] at hfuel
    exact ⟨hfuel, le_refl c, fun c2 h2 _ => h2⟩
  | succ fuel ih =>
    simp only [ceilSqrtAux]
    split
    · rename_i hle
      exact ⟨hle, le_refl c, fun c2 h2 _ => h2⟩
    · rename_i hgt
      have := ih (c + 1) (by rw [show c + 1 + fuel = c + (fuel + 1) by omega]; exact hfuel)
      refine ⟨this.1, by omega, fun c2 h2 hcount => ?_⟩
      rcases Nat.eq_or_lt_of_le h2 with h | h
      · subst h
        omega
      · exact this.2.2 c2 (by omega) hcount

theorem ceilSqrt_ge (n : Nat) : n ≤ ceilSqrt n * ceilSqrt n := by
  have h := ceilSqrtAux_spec n n 0 (by nlinarith)
  exact h.1

theorem ceilSqrt_min (n c : Nat) (h : n ≤ c * c) : ceilSqrt n ≤ c := by
  have hs := ceilSqrtAux_spec n n 0 (by nlinarith)
  exact hs.2.2 c (Nat.zero_le c) h

theorem ceilSqrt_pos (n : Nat) (h : 1 ≤ n) : 1 ≤ ceilSqrt n := by
  have hge := ceilSqrt_ge n
  by_contra hc
  push_neg at hc
  interval_cases (ceilSqrt n)
  omega

theorem findRows_spec (fuel c count r : Nat) (hc : 1 ≤ c) (hfuel : count ≤ r + fuel) :
    let R := findRows fuel c count r
    count ≤ R * c ∧ r ≤ R ∧ ∀ r2, r ≤ r2 → count ≤ r2 * c → R ≤ r2 := by
  induction fuel generalizing r with
  | zero =>
    simp only [findRows]
    have hr : count ≤ r := by omega
    refine ⟨le_trans hr (Nat.le_mul_of_pos_right r hc), le_refl r, fun r2 h2 _ => h2⟩
  | succ fuel ih =>
    simp only [findRows]
    split
    · rename_i hlt
      have hrc : r < count := by
        have : r ≤ r * c := Nat.le_mul_of_pos_right r hc
        omega
      have := ih (r + 1) (by omega)
      refine ⟨this.1, by omega, fun r2 h2 hcount => ?_⟩
      rcases Nat.eq_or_lt_of_le h2 with h | h
      · subst h; omega
      · exact this.2.2 r2 (by omega) hcount
    · rename_i hge
      push_neg at hge
      exact ⟨hge, le_refl r, fun r2 h2 _ => h2⟩

/-- Gradient construction modes (source: `ColorGradientOptions`; the source
field named after the reserved word "end" is called `endc` here). -/
inductive ColorGradientOptions (Color : Type) where
  | StartEnd (start endc : Color) (steps : Nat)
  | StartCenterEnd (start center endc : Color) (steps : Nat)

/-- Source: the `gradient` helper of `colors.rs`. Oklab conversion and the
per-channel `f32` interpolation are abstract parameters (`convert_to_oklab`,
`interpolate`); the two numeric arguments of `interpolate` are the exact
naturals the source passes (`counts_minus_one` and `i`), so the structure —
and in particular the length — of the produced list is modelled exactly. -/
def gradient {Color Ok : Type} (convert_to_oklab : Color → Ok)
    (interpolate : Ok → Ok → Nat → Nat → Color)
    (start endc : Color) (steps : Nat) : List Color :=
  let s := convert_to_oklab start
  let e := convert_to_oklab endc
  match steps with
  | 0 => []
  | 1 => [interpolate s e 2 1]
  | Nat.succ (Nat.succ k) =>
    let n := k + 2
    (List.range n).map (fun i => interpolate s e (n - 1) i)

/-- A `for i in 0..k { v.remove(i + offset) }` loop over a vector, as used by
the even-steps branch of `Gradient::with_options` (offsets 1 and 0). -/
def removeSeq {Color : Type} (l : List Color) (offset k : Nat) : List Color :=
  (List.range k).foldl (fun acc i => acc.eraseIdx (i + offset)) l

/-- Source: `Gradient::with_options` (the stop list of the constructed
gradient). -/
def with_options {Color Ok : Type} (convert_to_oklab : Color → Ok)
    (interpolate : Ok → Ok → Nat → Nat → Color)
    (options : ColorGradientOptions Color) : List Color :=
  match options with
  | .StartEnd start endc steps => gradient convert_to_oklab interpolate start endc steps
  | .StartCenterEnd start center endc steps =>
    match steps with
    | 0 => []
    | 1 => [center]
    | 2 => [start, endc]
    | 3 => [start, center, endc]
    | n =>
      if n % 2 = 0 then
        let start_center := gradient convert_to_oklab interpolate start center n
        let center_end := gradient convert_to_oklab interpolate center endc n
        removeSeq start_center 1 (n / 2) ++ removeSeq center_end 0 (n / 2)
      else
        let steps2 := (n + 1) / 2
        let start_center := gradient convert_to_oklab interpolate start center steps2
        let center_end := gradient convert_to_oklab interpolate center endc steps2
        start_center.dropLast ++ center_end

/-- Source: `Gradient::fetch_value` with `f32` idealized as `ℚ` and the
`n == 0` NaN result as `none`. -/
def fetch_value {Color : Type} (g : List Color)
    (lower upper relative_distance : ℚ) : Option ℚ :=
  let n := g.length
  if n = 0 then none
  else if n = 1 then some ((lower + upper) / 2)
  else
    let r := if relative_distance < 0 then 0
      else if relative_distance > 1 then 1
      else relative_distance
    let delta := (upper - lower) / ((n : ℚ) - 1)
    let f := (⌊r * (n : ℚ)⌋ : ℚ) * delta + lower
    some (if f > upper then upper else f)

/-- Modelled from the spec (§4.2): the claimed closed form of `fetch_value`
for `n ≥ 2` stops, written independently with `min`, `max` and the floor, to
be compared with the function translated from the source. -/
def fetch_value_spec_formula (n : Nat) (lower upper relative : ℚ) : ℚ :=
  min upper
    (lower + (⌊max 0 (min 1 relative) * (n : ℚ)⌋ : ℚ) * ((upper - lower) / ((n : ℚ) - 1)))

/-- Source: the free function `home_rect` — union bounding box of the visible
datasets, with the `unwrap_or` defaults 0 / 0 / 1 / 1 for an empty union. -/
def home_rect {Key Color : Type} [DecidableEq Key]
    (data : List (Key × Data Color)) (to_plot : List (Key × Bool)) : ShowRect :=
  let bounding_boxes :=
    (data.filter (fun kd => lookupVisible to_plot kd.1)).map (fun kd => kd.2.bounding_box)
  { left_top :=
      { x := ((bounding_boxes.map (fun b => b.left_top.x)).min?).getD 0,
        y := ((bounding_boxes.map (fun b => b.left_top.y)).min?).getD 0 },
    right_bottom :=
      { x := ((bounding_boxes.map (fun b => b.right_bottom.x)).max?).getD 1,
        y := ((bounding_boxes.map (fun b => b.right_bottom.y)).max?).getD 1 } }

/-- The cell geometry computed by step 3–5 of `render` (and replicated by
`convert_multimap2bitmap`). -/
structure RenderGeometry where
  data_columns : Nat
  data_rows : Nat
  width_per_data : Nat
  height_per_data : Nat
deriving DecidableEq, Repr

/-- The reserved colorbar width: colorbar thickness plus one
boundary-between-data thickness (source: the `cb_thickness` computation in
`render` and `convert_multimap2bitmap`). -/
def colorbar_reserved_width {Key Color : Type} (m : ShowMultiMap Key Color) : Nat :=
  match m.colorbar with
  | some (_, thickness, _) => thickness + m.boundary_between_data.thickness
  | none => 0

/-- The count/colorbar/cell-size checks of `render` after the shown rectangle
exists (source lines 403–441): visible-count zero fails `CountIsZero`, a
reserved colorbar width exceeding the raster width fails
`WidthSmallerThanColorBar`, otherwise the grid and per-cell sizes are
computed. -/
def render_core {Key Color : Type} [DecidableEq Key] (m : ShowMultiMap Key Color)
    (width height : Nat) (s : MultimapState Key) : Except RenderProblem RenderGeometry :=
  let count := (visibleData m s).length
  if count = 0 then .error .CountIsZero
  else
    let dcdr := compute_columns_rows count
    let data_columns := dcdr.1
    let data_rows := dcdr.2
    let cb_thickness := colorbar_reserved_width m
    if width ≥ cb_thickness then
      let width_without_colorbar := width - cb_thickness
      let width_without_colorbar_and_boundaries :=
        width_without_colorbar - m.boundary_between_data.thickness * (data_columns - 1)
      let width_per_data := width_without_colorbar_and_boundaries / data_columns
      let height_without_colorbar_and_boundaries :=
        height - m.boundary_between_data.thickness * (data_rows - 1)
      let height_per_data := height_without_colorbar_and_boundaries / data_rows
      .ok { data_columns := data_columns, data_rows := data_rows,
            width_per_data := width_per_data, height_per_data := height_per_data }
    else .error .WidthSmallerThanColorBar

/-- The state-updating and failure-checking part of `ShowMultiMap::render`
(source lines 388–441): lazily initializes the shown rectangle (failing
`NoData` when no datasets were ever registered) and then runs the checks of
`render_core`. Returns the session state as left by the call together with
either the cell geometry or the `RenderProblem`. The pixel-buffer production
(steps 6–11) is modelled by `render_point`, `update_color_choice`,
`render_raster_position` and `render_cell_pixel` below. -/
def render {Key Color : Type} [DecidableEq Key] (m : ShowMultiMap Key Color)
    (width height : Nat) (s : MultimapState Key) :
    MultimapState Key × Except RenderProblem RenderGeometry :=
  match s.shown_rectangle with
  | none =>
    if m.data.isEmpty then (s, .error .NoData)
    else
      let s2 := { s with shown_rectangle := some (home_rect m.data s.to_plot) }
      (s2, render_core m width height s2)
  | some _ => (s, render_core m width height s)

/-- A mapped destination pixel: data coordinate plus boundary flag
(source: `RenderPoint`). -/
structure RenderPoint where
  coordinate : CoordinatePoint
  is_boundary : Bool
deriving DecidableEq, Repr

/-- One axis of the super-sample block mapping: given the shown rectangle's
left/top coordinate on this axis, the pixels-per-point, the centering offset
`(cell_size % per_point + 1) / 2` and the boundary thickness, map an in-cell
pixel position to a data coordinate and a boundary flag (source: the
`let x = if column < offset_x { .. } else { .. }` blocks, identical in
`render` and `convert_multimap2bitmap`). -/
def axis_block (left_top : Int) (per_point offset boundary_thickness pos : Nat) : Int × Bool :=
  if pos < offset then
    (left_top - 1, decide (pos + boundary_thickness ≥ offset))
  else
    let p := pos - offset
    let q := p / per_point
    let rem := p % per_point
    (left_top + q, decide (rem < boundary_thickness ∨ rem + boundary_thickness ≥ per_point))

/-- The per-cell pixel-to-coordinate mapping with its boundary flag: the four
density regimes of `render` step 6 (source lines 509–715), duplicated
verbatim inside `convert_multimap2bitmap` (source lines 1005–1132); the
duplicated block is modelled once and used by both paths. -/
def render_point {Key Color : Type} (m : ShowMultiMap Key Color) (shown : CoordinateRect)
    (width_per_data height_per_data row column : Nat) : RenderPoint :=
  let delta := shown.delta
  let width_per_point := width_per_data / delta.x
  let height_per_point := height_per_data / delta.y
  let bmin := m.boundary_factor_min * m.boundary_unselected.thickness
  if width_per_point > 0 ∧ height_per_point > 0 then
    let boundary_thickness :=
      if width_per_point > bmin ∧ height_per_point > bmin
      then m.boundary_unselected.thickness else 0
    let offset_x := (width_per_data % width_per_point + 1) / 2
    let offset_y := (height_per_data % height_per_point + 1) / 2
    let xb := axis_block shown.left_top.x width_per_point offset_x boundary_thickness column
    let yb := axis_block shown.left_top.y height_per_point offset_y boundary_thickness row
    { coordinate := { x := xb.1, y := yb.1 }, is_boundary := xb.2 || yb.2 }
  else if width_per_point > 0 ∧ height_per_point = 0 then
    let boundary_thickness :=
      if width_per_point > bmin then m.boundary_unselected.thickness else 0
    let offset_x := (width_per_data % width_per_point + 1) / 2
    let xb := axis_block shown.left_top.x width_per_point offset_x boundary_thickness column
    let y := shown.left_top.y + (row * delta.y / height_per_data : Nat)
    { coordinate := { x := xb.1, y := y }, is_boundary := xb.2 }
  else if width_per_point = 0 ∧ height_per_point > 0 then
    let boundary_thickness :=
      if height_per_point > bmin then m.boundary_unselected.thickness else 0
    let offset_y := (height_per_data % height_per_point + 1) / 2
    let yb := axis_block shown.left_top.y height_per_point offset_y boundary_thickness row
    let x := shown.left_top.x + (column * delta.x / width_per_data : Nat)
    { coordinate := { x := x, y := yb.1 }, is_boundary := yb.2 }
  else
    let x := column * delta.x / width_per_data
    let y := row * delta.y / height_per_data
    { coordinate := shown.left_top.addVec { x := x, y := y }, is_boundary := false }

/-- The color chosen by `update_color` (source lines 899–947) for a render
point: dataset color, boundary-selected / boundary-unselected override for
boundary pixels, background on a coordinate miss, then the drag-rectangle
darkening and alpha stripping; the color-type capabilities
`gamma_multiply(0.5)` and `remove_alpha` are passed as functions. -/
def update_color_choice {Key Color : Type} [DecidableEq Key]
    (gamma_multiply_half remove_alpha : Color → Color)
    (m : ShowMultiMap Key Color) (data : Data Color) (rp : RenderPoint)
    (s : MultimapState Key) : Color :=
  let c := match data.lookup rp.coordinate with
    | some c =>
      if rp.is_boundary then
        if rp.coordinate ∈ s.selected then m.boundary_selected
        else m.boundary_unselected.color
      else c
    | none => m.background
  let c := match m.drag_area with
    | some ((lt, rb), _) =>
      if lt.x ≤ rp.coordinate.x ∧ lt.y ≤ rp.coordinate.y ∧
          rp.coordinate.x ≤ rb.x ∧ rp.coordinate.y ≤ rb.y then
        gamma_multiply_half c
      else c
    | none => c
  remove_alpha c

/-- The raster pixel (column, row) into which `update_color` writes the color
for in-cell position (row, column) of cell (data_row, data_column)
(source lines 944–946). -/
def render_raster_position {Key Color : Type} (m : ShowMultiMap Key Color)
    (geometry : RenderGeometry) (data_row data_column row column : Nat) : Nat × Nat :=
  (column + data_column * (geometry.width_per_data + m.boundary_between_data.thickness),
   row + data_row * (geometry.height_per_data + m.boundary_between_data.thickness))

/-- What `render` paints for in-cell pixel (row, column) of cell
(data_row, data_column): the key of the dataset occupying that cell (the
visible list in registration order, laid out row-major), the mapped render
point and the chosen color; `none` when the cell has no dataset (the source's
`data_sets.pop()` returning `None`). -/
def render_cell_pixel {Key Color : Type} [DecidableEq Key]
    (gamma_multiply_half remove_alpha : Color → Color)
    (m : ShowMultiMap Key Color) (geometry : RenderGeometry) (shown : CoordinateRect)
    (s : MultimapState Key) (data_row data_column row column : Nat) :
    Option (Key × RenderPoint × Color) :=
  match (visibleData m s)[data_row * geometry.data_columns + data_column]? with
  | none => none
  | some (key, data) =>
    let rp := render_point m shown geometry.width_per_data geometry.height_per_data row column
    some (key, rp, update_color_choice gamma_multiply_half remove_alpha m data rp s)

/-- Source: `ShowMultiMap::convert_multimap2bitmap` — the pixel-to-logical
hit-test. -/
def convert_multimap2bitmap {Key Color : Type} [DecidableEq Key]
    (m : ShowMultiMap Key Color) (p : MultiMapPoint) (width height : Nat)
    (s : MultimapState Key) : MultiMapPosition Key :=
  let column := p.x
  let row := p.y
  let data_sets := visibleData m s
  let count := data_sets.length
  if count = 0 then .NotHovering
  else
    let dcdr := compute_columns_rows count
    let data_columns := dcdr.1
    let data_rows := dcdr.2
    let cb_thickness := colorbar_reserved_width m
    if width ≥ cb_thickness then
      let width_per_data :=
        (width - cb_thickness - m.boundary_between_data.thickness * (data_columns - 1))
          / data_columns
      let height_per_data :=
        (height - m.boundary_between_data.thickness * (data_rows - 1)) / data_rows
      let data_column := column / width_per_data
      let data_row := row / height_per_data
      let data_index := data_row * data_columns + data_column
      let plot_width := data_columns * width_per_data
        + m.boundary_between_data.thickness * (data_columns - 1)
      if column < plot_width then
        match data_sets[data_index]? with
        | some (key, data) =>
          let shown := (s.shown_rectangle.getD ShowRect.zero).toCoordinateRect
          let row2 := row % height_per_data
          let column2 := column % width_per_data
          let rp := render_point m shown width_per_data height_per_data row2 column2
          if (data.lookup rp.coordinate).isSome then .Pixel key rp.coordinate
          else .NoData key rp.coordinate
        | none => .NotHovering
      else
        match m.colorbar with
        | some (g, thickness, lu) =>
          if column + thickness ≥ width then
            let relative_distance := (row : ℚ) / (height : ℚ)
            .Colorbar (fetch_value g lu.1 lu.2 (1 - relative_distance))
          else .NotHovering
        | none => .NotHovering
    else .NotHovering

/-- Source: `ShowMultiMap::zoom` (the mutated shown rectangle returned as a
value; the y-branch reads the rectangle after the x-branch mutated it, which
the sequential lets reproduce — the y-components are unaffected by the
x-branch). -/
def zoom (zoom_increment : Int) (shown_rectangle : ShowRect) : ShowRect :=
  let r1 :=
    if zoom_increment < 0 ∨
        shown_rectangle.right_bottom.x - shown_rectangle.left_top.x
          > 3 + zoom_increment * 2 then
      { shown_rectangle with
        left_top :=
          { shown_rectangle.left_top with x := shown_rectangle.left_top.x + zoom_increment },
        right_bottom :=
          { shown_rectangle.right_bottom with
            x := shown_rectangle.right_bottom.x - zoom_increment } }
    else shown_rectangle
  if zoom_increment < 0 ∨ r1.right_bottom.y - r1.left_top.y > 3 + zoom_increment * 2 then
    { r1 with
      left_top := { r1.left_top with y := r1.left_top.y + zoom_increment },
      right_bottom := { r1.right_bottom with y := r1.right_bottom.y - zoom_increment } }
  else r1

/-- Source: `ShowMultiMap::select` — remove returns prior membership, clear
unless ctrl is pressed, then insert when the point was not present before. -/
def select (pos : CoordinatePoint) (ctrl_is_pressed : Bool)
    (selected : Finset CoordinatePoint) : Finset CoordinatePoint :=
  let was_selected_before := pos ∈ selected
  let selected1 := selected.erase pos
  let selected2 := if ctrl_is_pressed then selected1 else ∅
  if was_selected_before then selected2 else insert pos selected2

/-- Source: `ShowMultiMap::drag_release` — `self.drag_area.take()` clears the
ephemeral drag state in every case; a release position together with an
active drag commits the normalized box as the new shown rectangle exactly
when both extents exceed `3 + 1`. Returns the widget (with cleared drag
state) and the resulting shown rectangle. -/
def drag_release {Key Color : Type} (m : ShowMultiMap Key Color)
    (pos : Option CoordinatePoint) (shown_rectangle : ShowRect) :
    ShowMultiMap Key Color × ShowRect :=
  let m2 := { m with drag_area := none }
  match m.drag_area, pos with
  | some (_, a), some p =>
    let lt : ShowPoint := { x := min a.x p.x, y := min a.y p.y }
    let rb : ShowPoint := { x := max a.x p.x + 1, y := max a.y p.y + 1 }
    let dx := rb.x - lt.x
    let dy := rb.y - lt.y
    if dx > 3 + 1 ∧ dy > 3 + 1 then (m2, { left_top := lt, right_bottom := rb })
    else (m2, shown_rectangle)
  | _, _ => (m2, shown_rectangle)

/-- Sample widget with an active drag anchored at (0, 0), for the
`drag_release_spec` witness. -/
def dragWidget : ShowMultiMap Nat Char :=
  { data := [],
    boundary_between_data := { color := '-', thickness := 0 },
    colorbar := none,
    background := '.',
    boundary_unselected := { color := 'r', thickness := 1 },
    boundary_selected := 'w',
    boundary_factor_min := 0,
    drag_area := some (({ x := 0, y := 0 }, { x := 0, y := 0 }), { x := 0, y := 0 }) }

/-- A 5×5 dataset whose colors are the decimal digit characters, as built by
the source's own `render_simple_tests`. -/
def mkData (fp : CoordinatePoint) : Data Char :=
  { width := 5, height := 5,
    data := (List.range 25).map (fun i => Char.ofNat (48 + i % 10)),
    first_point_coordinate := fp }

/-- The widget configuration of the source's own `render_simple_tests`: four
5×5 datasets anchored at (0,0), (1,0), (0,1), (1,1), boundary-between-data
thickness 2, a 3-stop colorbar of thickness 4, boundary_factor_min 7. -/
def mTest : ShowMultiMap Nat Char :=
  { data := [(0, mkData { x := 0, y := 0 }), (1, mkData { x := 1, y := 0 }),
      (2, mkData { x := 0, y := 1 }), (3, mkData { x := 1, y := 1 })],
    boundary_between_data := { color := '-', thickness := 2 },
    colorbar := some (['a', 'b', 'c'], 4, (0, 1)),
    background := '.',
    boundary_unselected := { color := 'r', thickness := 1 },
    boundary_selected := 'w',
    boundary_factor_min := 7,
    drag_area := none }

/-- The default session state for `mTest` (source: `default_state`). -/
def sTest0 : MultimapState Nat :=
  { to_plot := [(0, true), (1, true), (2, true), (3, true)],
    selected := ∅, shown_rectangle := none }

/-- The session state after the first render of `mTest` at 66×23. -/
def sTest1 : MultimapState Nat := (render mTest 66 23 sTest0).1

/-- The shown rectangle of `sTest1` as a coordinate rectangle. -/
def shownTest : CoordinateRect :=
  (sTest1.shown_rectangle.getD ShowRect.zero).toCoordinateRect

/-- The cell geometry `render` computes for `mTest` at 66×23. -/
def geomTest : RenderGeometry :=
  { data_columns := 2, data_rows := 2, width_per_data := 29, height_per_data := 10 }

/-- A widget with no datasets at all. -/
def mEmpty : ShowMultiMap Nat Char :=
  { data := [],
    boundary_between_data := { color := '-', thickness := 0 },
    colorbar := none,
    background := '.',
    boundary_unselected := { color := 'r', thickness := 1 },
    boundary_selected := 'w',
    boundary_factor_min := 0,
    drag_area := none }

/-- A session state whose shown rectangle is already set (reachable via
`home()` even without datasets). -/
def sShown : MultimapState Nat :=
  { to_plot := [], selected := ∅,
    shown_rectangle := some ⟨{ x := 0, y := 0 }, { x := 8, y := 8 }⟩ }

/-- A widget with one registered dataset. -/
def mHidden : ShowMultiMap Nat Char :=
  { data := [(0, mkData { x := 0, y := 0 })],
    boundary_between_data := { color := '-', thickness := 0 },
    colorbar := none,
    background := '.',
    boundary_unselected := { color := 'r', thickness := 1 },
    boundary_selected := 'w',
    boundary_factor_min := 0,
    drag_area := none }

/-- A session state hiding the only dataset, with no shown rectangle yet. -/
def sHidden : MultimapState Nat :=
  { to_plot := [(0, false)], selected := ∅, shown_rectangle := none }

theorem compute_columns_rows_eq (count : Nat) (h : count ≠ 0) :
    compute_columns_rows count =
      (ceilSqrt count, findRows count (ceilSqrt count) count (count / ceilSqrt count)) := by
  unfold compute_columns_rows
  simp [h]

theorem ceilSqrt_eq (n c : Nat) (h1 : n ≤ c * c) (h2 : (c - 1) * (c - 1) < n) :
    ceilSqrt n = c := by
  have hle : ceilSqrt n ≤ c := ceilSqrt_min n c h1
  have hge := ceilSqrt_ge n
  by_contra hne
  have hlt : ceilSqrt n ≤ c - 1 := by omega
  have : ceilSqrt n * ceilSqrt n ≤ (c - 1) * (c - 1) := Nat.mul_le_mul hlt hlt
  omega

theorem compute_golden (count c r : Nat) (h0 : count ≠ 0) (h1 : count ≤ c * c)
    (h2 : (c - 1) * (c - 1) < count) (h3 : findRows count c count (count / c) = r) :
    compute_columns_rows count = (c, r) := by
  rw [compute_columns_rows_eq count h0, ceilSqrt_eq count c h1 h2, h3]

/-- C2: for every count ≥ 1, `compute_columns_rows` returns
(columns, rows) with columns the ceiling square root of count (least c with
count ≤ c·c) and rows the least r with count ≤ r·columns (hence
rows·columns ≥ count and (rows−1)·columns < count); count = 0 gives (0, 0)
and the golden table of §4.1 is reproduced exactly. -/
theorem compute_columns_rows_spec (count : Nat) (h : 1 ≤ count) :
    (count ≤ (compute_columns_rows count).1 * (compute_columns_rows count).1 ∧
      ∀ c, count ≤ c * c → (compute_columns_rows count).1 ≤ c) ∧
    count ≤ (compute_columns_rows count).2 * (compute_columns_rows count).1 ∧
    ((compute_columns_rows count).2 - 1) * (compute_columns_rows count).1 < count ∧
    (∀ r, count ≤ r * (compute_columns_rows count).1 → (compute_columns_rows count).2 ≤ r) ∧
    compute_columns_rows 0 = (0, 0) ∧
    compute_columns_rows 1 = (1, 1) ∧ compute_columns_rows 2 = (2, 1) ∧
    compute_columns_rows 3 = (2, 2) ∧ compute_columns_rows 5 = (3, 2) ∧
    compute_columns_rows 7 = (3, 3) ∧ compute_columns_rows 10 = (4, 3) ∧
    compute_columns_rows 13 = (4, 4) ∧ compute_columns_rows 17 = (5, 4) := by
  have h0 : count ≠ 0 := by omega
  have hc1 : 1 ≤ ceilSqrt count := ceilSqrt_pos count h
  have hfr := findRows_spec count (ceilSqrt count) count (count / ceilSqrt count) hc1
    (Nat.le_add_left count (count / ceilSqrt count))
  rw [compute_columns_rows_eq count h0]
  obtain ⟨hR1, hR2, hR3⟩ := hfr
  have hr0 : count / ceilSqrt count * ceilSqrt count ≤ count := Nat.div_mul_le_self _ _
  constructor
  · exact ⟨ceilSqrt_ge count, fun c hc => ceilSqrt_min count c hc⟩
  refine ⟨hR1, ?_, ?_, rfl,
    compute_golden 1 1 1 (by decide) (by decide) (by decide) (by decide),
    compute_golden 2 2 1 (by decide) (by decide) (by decide) (by decide),
    compute_golden 3 2 2 (by decide) (by decide) (by decide) (by decide),
    compute_golden 5 3 2 (by decide) (by decide) (by decide) (by decide),
    compute_golden 7 3 3 (by decide) (by decide) (by decide) (by decide),
    compute_golden 10 4 3 (by decide) (by decide) (by decide) (by decide),
    compute_golden 13 4 4 (by decide) (by decide) (by decide) (by decide),
    compute_golden 17 5 4 (by decide) (by decide) (by decide) (by decide)⟩
  · -- minimality implies the previous row count does not cover `count`
    set c := ceilSqrt count with hcdef
    set R := findRows count c count (count / c) with hRdef
    show (R - 1) * c < count
    by_contra hge
    push_neg at hge
    have hRpos : 1 ≤ R := by
      by_contra hR0
      push_neg at hR0
      interval_cases R
      simp at hR1
      omega
    have hsub : (R - 1) * c + c = R * c := by
      have : R - 1 + 1 = R := by omega
      calc (R - 1) * c + c = (R - 1 + 1) * c := by ring
        _ = R * c := by rw [this]
    rcases Nat.lt_or_ge (R - 1) (count / c) with hlt | hge2
    · have hRle : R ≤ count / c := by omega
      have : R * c ≤ count := le_trans (Nat.mul_le_mul_right c hRle) hr0
      omega
    · have := hR3 (R - 1) hge2 hge
      omega
  · intro r hr
    have hrge : count / ceilSqrt count ≤ r := by
      have h2 : count / ceilSqrt count ≤ r * ceilSqrt count / ceilSqrt count :=
        Nat.div_le_div_right hr
      rwa [Nat.mul_div_cancel r hc1] at h2
    exact hR3 r hrge hr

/-- Witness for `compute_columns_rows_spec` at count = 5. -/
theorem compute_columns_rows_spec_witness :
    1 ≤ 5 ∧
    ((5 ≤ (compute_columns_rows 5).1 * (compute_columns_rows 5).1 ∧
      ∀ c, 5 ≤ c * c → (compute_columns_rows 5).1 ≤ c) ∧
    5 ≤ (compute_columns_rows 5).2 * (compute_columns_rows 5).1 ∧
    ((compute_columns_rows 5).2 - 1) * (compute_columns_rows 5).1 < 5 ∧
    (∀ r, 5 ≤ r * (compute_columns_rows 5).1 → (compute_columns_rows 5).2 ≤ r) ∧
    compute_columns_rows 0 = (0, 0) ∧
    compute_columns_rows 1 = (1, 1) ∧ compute_columns_rows 2 = (2, 1) ∧
    compute_columns_rows 3 = (2, 2) ∧ compute_columns_rows 5 = (3, 2) ∧
    compute_columns_rows 7 = (3, 3) ∧ compute_columns_rows 10 = (4, 3) ∧
    compute_columns_rows 13 = (4, 4) ∧ compute_columns_rows 17 = (5, 4)) :=
  ⟨by decide, compute_columns_rows_spec 5 (by decide)⟩

theorem gradient_length {Color Ok : Type} (conv : Color → Ok)
    (interp : Ok → Ok → Nat → Nat → Color) (s e : Color) (steps : Nat) :
    (gradient conv interp s e steps).length = steps := by
  match steps with
  | 0 => rfl
  | 1 => rfl
  | Nat.succ (Nat.succ k) => simp [gradient]

theorem removeSeq_succ {Color : Type} (l : List Color) (offset k : Nat) :
    removeSeq l offset (k + 1) = (removeSeq l offset k).eraseIdx (k + offset) := by
  unfold removeSeq
  rw [List.range_succ, List.foldl_append]
  rfl

theorem removeSeq_length {Color : Type} (l : List Color) (offset k : Nat)
    (h : ∀ i, i < k → i + offset < l.length - i) :
    (removeSeq l offset k).length = l.length - k := by
  induction k with
  | zero => rfl
  | succ k ih =>
    rw [removeSeq_succ]
    have hlen : (removeSeq l offset k).length = l.length - k :=
      ih (fun i hi => h i (by omega))
    have hidx : k + offset < (removeSeq l offset k).length := by
      have := h k (by omega)
      omega
    have := List.length_eraseIdx_add_one hidx
    omega

/-- C10: `Gradient::with_options` produces a gradient with exactly `steps`
colors, in the StartEnd mode and in the StartCenterEnd mode, for every
steps ≥ 0 — including the special-cased steps 0–3 and both the even and the
odd de-duplicating split of StartCenterEnd. -/
theorem with_options_length {Color Ok : Type} (conv : Color → Ok)
    (interp : Ok → Ok → Nat → Nat → Color) (start center endc : Color) (steps : Nat) :
    (with_options conv interp (.StartEnd start endc steps)).length = steps ∧
    (with_options conv interp (.StartCenterEnd start center endc steps)).length = steps := by
  constructor
  · simpa [with_options] using gradient_length conv interp start endc steps
  · match steps with
    | 0 => rfl
    | 1 => rfl
    | 2 => rfl
    | 3 => rfl
    | (n + 4) =>
      simp only [with_options]
      by_cases hpar : (n + 4) % 2 = 0
      · rw [if_pos hpar, List.length_append,
          removeSeq_length _ _ _ (by intro i hi; rw [gradient_length]; omega),
          removeSeq_length _ _ _ (by intro i hi; rw [gradient_length]; omega),
          gradient_length, gradient_length]
        omega
      · rw [if_neg hpar, List.length_append, List.length_dropLast,
          gradient_length, gradient_length]
        omega

/-- C8: `Gradient::fetch_value` (with `f32` idealized as `ℚ`) returns NaN
(modelled `none`) for 0 stops, the midpoint for 1 stop, and for n ≥ 2 stops
exactly the value lower + ⌊clamp(relative,0,1)·n⌋·((upper−lower)/(n−1))
capped at upper; for n ≥ 2 and upper ≥ lower the value is monotonically
non-decreasing in relative. -/
theorem fetch_value_spec {Color : Type} (g : List Color) (lower upper r1 r2 : ℚ) :
    (g.length = 0 → fetch_value g lower upper r1 = none) ∧
    (g.length = 1 → fetch_value g lower upper r1 = some ((lower + upper) / 2)) ∧
    (2 ≤ g.length →
      fetch_value g lower upper r1 = some (fetch_value_spec_formula g.length lower upper r1)) ∧
    (2 ≤ g.length → lower ≤ upper → r1 ≤ r2 → ∀ v1 v2,
      fetch_value g lower upper r1 = some v1 → fetch_value g lower upper r2 = some v2 →
      v1 ≤ v2) := by
  have hclamp : ∀ r : ℚ, (if r < 0 then (0 : ℚ) else if r > 1 then 1 else r)
      = max 0 (min 1 r) := by
    intro r
    rcases lt_or_le r 0 with h | h
    · rw [if_pos h]
      rw [min_eq_right (by linarith : r ≤ 1), max_eq_left (by linarith : r ≤ 0)]
    · rw [if_neg (not_lt.mpr h)]
      rcases lt_or_le 1 r with h2 | h2
      · rw [if_pos h2, min_eq_left (by linarith : (1:ℚ) ≤ r),
          max_eq_right (by norm_num : (0:ℚ) ≤ 1)]
      · rw [if_neg (not_lt.mpr h2), min_eq_right h2, max_eq_right h]
  have hcap : ∀ u f : ℚ, (if f > u then u else f) = min u f := by
    intro u f
    rcases lt_or_le u f with h | h
    · rw [if_pos h, min_eq_left (le_of_lt h)]
    · rw [if_neg (not_lt.mpr h), min_eq_right h]
  have hform : 2 ≤ g.length →
      fetch_value g lower upper r1 = some (fetch_value_spec_formula g.length lower upper r1) := by
    intro hn
    unfold fetch_value fetch_value_spec_formula
    rw [if_neg (by omega), if_neg (by omega)]
    simp only [hclamp]
    simp only [hcap]
    ring_nf
  refine ⟨?_, ?_, hform, ?_⟩
  · intro h
    unfold fetch_value
    rw [if_pos h]
  · intro h
    unfold fetch_value
    rw [if_neg (by omega), if_pos h]
  · intro hn hlu hr v1 v2 h1 h2
    rw [hform hn] at h1
    have hform2 : fetch_value g lower upper r2
        = some (fetch_value_spec_formula g.length lower upper r2) := by
      unfold fetch_value fetch_value_spec_formula
      rw [if_neg (by omega), if_neg (by omega)]
      simp only [hclamp]
      simp only [hcap]
      ring_nf
    rw [hform2] at h2
    injection h1 with h1
    injection h2 with h2
    subst h1
    subst h2
    unfold fetch_value_spec_formula
    have hden : (0 : ℚ) ≤ (upper - lower) / ((g.length : ℚ) - 1) := by
      apply div_nonneg (by linarith)
      have : (2 : ℚ) ≤ (g.length : ℚ) := by exact_mod_cast hn
      linarith
    have hcl : max 0 (min 1 r1) ≤ max 0 (min 1 r2) :=
      max_le_max (le_refl 0) (min_le_min (le_refl 1) hr)
    have hfloor : (⌊max 0 (min 1 r1) * (g.length : ℚ)⌋ : ℚ)
        ≤ (⌊max 0 (min 1 r2) * (g.length : ℚ)⌋ : ℚ) := by
      have : max 0 (min 1 r1) * (g.length : ℚ) ≤ max 0 (min 1 r2) * (g.length : ℚ) := by
        apply mul_le_mul_of_nonneg_right hcl
        positivity
      exact_mod_cast Int.floor_le_floor this
    apply min_le_min (le_refl upper)
    have := mul_le_mul_of_nonneg_right hfloor hden
    linarith

/-- Witness for `fetch_value_spec` on the three-stop gradient of the source's
own render test, with bounds (0, 1) and relative position 1/3. -/
theorem fetch_value_spec_witness :
    fetch_value (['a','b','c'] : List Char) 0 1 (1/3)
      = some (fetch_value_spec_formula (['a','b','c'] : List Char).length 0 1 (1/3)) :=
  (fetch_value_spec ['a','b','c'] 0 1 (1/3) (2/3)).2.2.1 (by decide)

/-- C5: for every shown rectangle with extent ≥ 4 on an axis and every zoom
increment, `zoom` never produces an extent < 4 on that axis; a negative
increment is always applied, growing the rectangle by |increment| on each
side; a positive increment is applied per-axis exactly when the extent
condition `extent > 3 + 2·increment` holds, and otherwise that axis is left
completely unchanged. -/
theorem zoom_spec (r : ShowRect) (inc : Int) :
    (4 ≤ r.right_bottom.x - r.left_top.x →
      4 ≤ (zoom inc r).right_bottom.x - (zoom inc r).left_top.x) ∧
    (4 ≤ r.right_bottom.y - r.left_top.y →
      4 ≤ (zoom inc r).right_bottom.y - (zoom inc r).left_top.y) ∧
    (inc < 0 →
      (zoom inc r).left_top.x = r.left_top.x + inc ∧
      (zoom inc r).right_bottom.x = r.right_bottom.x - inc ∧
      (zoom inc r).left_top.y = r.left_top.y + inc ∧
      (zoom inc r).right_bottom.y = r.right_bottom.y - inc) ∧
    (0 < inc → r.right_bottom.x - r.left_top.x > 3 + inc * 2 →
      (zoom inc r).left_top.x = r.left_top.x + inc ∧
      (zoom inc r).right_bottom.x = r.right_bottom.x - inc) ∧
    (0 < inc → ¬(r.right_bottom.x - r.left_top.x > 3 + inc * 2) →
      (zoom inc r).left_top.x = r.left_top.x ∧
      (zoom inc r).right_bottom.x = r.right_bottom.x) ∧
    (0 < inc → r.right_bottom.y - r.left_top.y > 3 + inc * 2 →
      (zoom inc r).left_top.y = r.left_top.y + inc ∧
      (zoom inc r).right_bottom.y = r.right_bottom.y - inc) ∧
    (0 < inc → ¬(r.right_bottom.y - r.left_top.y > 3 + inc * 2) →
      (zoom inc r).left_top.y = r.left_top.y ∧
      (zoom inc r).right_bottom.y = r.right_bottom.y) := by
  unfold zoom
  simp only []
  split_ifs with h1 h2 h2 <;>
    refine ⟨?_, ?_, ?_, ?_, ?_, ?_, ?_⟩ <;> intros <;> (try dsimp only [] at *) <;> omega

/-- Witness for `zoom_spec`: zooming the rectangle (0,0)–(10,6) in by 2
shrinks the x-axis but leaves the y-axis untouched. -/
theorem zoom_spec_witness :
    (4 ≤ (10 : Int) - 0 ∧
      4 ≤ (zoom 2 ⟨⟨0, 0⟩, ⟨10, 6⟩⟩).right_bottom.x -
        (zoom 2 ⟨⟨0, 0⟩, ⟨10, 6⟩⟩).left_top.x) ∧
    ((0 : Int) < 2 ∧ ¬((6 : Int) - 0 > 3 + 2 * 2) ∧
      (zoom 2 ⟨⟨0, 0⟩, ⟨10, 6⟩⟩).left_top.y = 0 ∧
      (zoom 2 ⟨⟨0, 0⟩, ⟨10, 6⟩⟩).right_bottom.y = 6) :=
  ⟨⟨by decide, (zoom_spec ⟨⟨0, 0⟩, ⟨10, 6⟩⟩ 2).1 (by decide)⟩,
   by decide, by decide,
   ((zoom_spec ⟨⟨0, 0⟩, ⟨10, 6⟩⟩ 2).2.2.2.2.2.2 (by decide) (by decide)).1,
   ((zoom_spec ⟨⟨0, 0⟩, ⟨10, 6⟩⟩ 2).2.2.2.2.2.2 (by decide) (by decide)).2⟩

/-- C6: `drag_release` always clears the ephemeral drag state; with an active
drag and a release position it commits the normalized box (componentwise min
as left_top, componentwise max plus one as right_bottom) exactly when both
pixel-inclusive extents exceed 4 — which guarantees any committed rectangle
satisfies right_bottom > left_top + 3 on both axes — and otherwise (including
a too-small box, no position, or no active drag) the prior shown rectangle is
returned unchanged. -/
theorem drag_release_spec {Key Color : Type} (m : ShowMultiMap Key Color)
    (pos : Option CoordinatePoint) (r : ShowRect) :
    (drag_release m pos r).1.drag_area = none ∧
    ((drag_release m pos r).2 = r ∨
      ((drag_release m pos r).2.right_bottom.x > (drag_release m pos r).2.left_top.x + 3 ∧
       (drag_release m pos r).2.right_bottom.y > (drag_release m pos r).2.left_top.y + 3)) ∧
    (∀ pr a p, m.drag_area = some (pr, a) → pos = some p →
      (let lt : ShowPoint := { x := min a.x p.x, y := min a.y p.y }
       let rb : ShowPoint := { x := max a.x p.x + 1, y := max a.y p.y + 1 }
       if 4 < rb.x - lt.x ∧ 4 < rb.y - lt.y then
         (drag_release m pos r).2 = { left_top := lt, right_bottom := rb }
       else (drag_release m pos r).2 = r)) ∧
    (pos = none → (drag_release m pos r).2 = r) ∧
    (m.drag_area = none → (drag_release m pos r).2 = r) := by
  rcases hd : m.drag_area with _ | ⟨pr, a⟩
  · have hred : drag_release m pos r = ({ m with drag_area := none }, r) := by
      unfold drag_release
      rw [hd]
    rw [hred]
    exact ⟨rfl, Or.inl rfl, fun pr2 a2 p2 hd2 hp2 => absurd hd2 (by simp),
      fun _ => rfl, fun _ => rfl⟩
  · rcases pos with _ | p
    · have hred : drag_release m none r = ({ m with drag_area := none }, r) := by
        unfold drag_release
        rw [hd]
      rw [hred]
      exact ⟨rfl, Or.inl rfl, fun pr2 a2 p2 hd2 hp2 => absurd hp2 (by simp),
        fun _ => rfl, fun _ => rfl⟩
    · have hred : drag_release m (some p) r =
          (if max a.x p.x + 1 - min a.x p.x > 3 + 1 ∧ max a.y p.y + 1 - min a.y p.y > 3 + 1 then
            ({ m with drag_area := none },
              { left_top := { x := min a.x p.x, y := min a.y p.y },
                right_bottom := { x := max a.x p.x + 1, y := max a.y p.y + 1 } })
          else ({ m with drag_area := none }, r)) := by
        unfold drag_release
        rw [hd]
      rw [hred]
      by_cases hc : max a.x p.x + 1 - min a.x p.x > 3 + 1
          ∧ max a.y p.y + 1 - min a.y p.y > 3 + 1
      · rw [if_pos hc]
        refine ⟨rfl, Or.inr ⟨by dsimp only []; omega, by dsimp only []; omega⟩, ?_,
          fun h2 => absurd h2 (by simp), fun h2 => absurd h2 (by simp)⟩
        intro pr2 a2 p2 hd2 hp2
        simp only [Option.some.injEq, Prod.mk.injEq] at hd2 hp2
        obtain ⟨h3, h4⟩ := hd2
        subst h4
        subst hp2
        dsimp only []
        rw [if_pos (by constructor <;> omega)]
      · rw [if_neg hc]
        refine ⟨rfl, Or.inl rfl, ?_,
          fun h2 => absurd h2 (by simp), fun h2 => absurd h2 (by simp)⟩
        intro pr2 a2 p2 hd2 hp2
        simp only [Option.some.injEq, Prod.mk.injEq] at hd2 hp2
        obtain ⟨h3, h4⟩ := hd2
        subst h4
        subst hp2
        dsimp only []
        rw [if_neg (by omega)]

/-- Witness for `drag_release_spec`: releasing at (9, 9) commits the box
(0,0)–(10,10). -/
theorem drag_release_spec_witness :
    (drag_release dragWidget (some { x := 9, y := 9 }) ShowRect.zero).1.drag_area = none ∧
    (drag_release dragWidget (some { x := 9, y := 9 }) ShowRect.zero).2
      = { left_top := { x := 0, y := 0 }, right_bottom := { x := 10, y := 10 } } :=
  ⟨(drag_release_spec dragWidget (some { x := 9, y := 9 }) ShowRect.zero).1,
   (drag_release_spec dragWidget (some { x := 9, y := 9 }) ShowRect.zero).2.2.1
      ({ x := 0, y := 0 }, { x := 0, y := 0 }) { x := 0, y := 0 } { x := 9, y := 9 }
      rfl rfl⟩

/-- Counterexample to C7 as stated: for S = {(0,0), (1,1)} — where (0,0) is a
member but not the sole member — a non-additive select of (0,0) empties the
selection instead of producing {(0,0)}. -/
theorem select_counterexample :
    select { x := 0, y := 0 } false
        ({ { x := 0, y := 0 }, { x := 1, y := 1 } } : Finset CoordinatePoint)
      = (∅ : Finset CoordinatePoint) ∧
    ({ x := 0, y := 0 } : CoordinatePoint)
      ∈ ({ { x := 0, y := 0 }, { x := 1, y := 1 } } : Finset CoordinatePoint) ∧
    ({ { x := 0, y := 0 }, { x := 1, y := 1 } } : Finset CoordinatePoint)
      ≠ { { x := 0, y := 0 } } ∧
    (∅ : Finset CoordinatePoint) ≠ { ({ x := 0, y := 0 } : CoordinatePoint) } := by
  decide

/-- C7 as amended: non-additive select yields {p} when p was not selected and
∅ when p was selected (sole member or not); additive select toggles p and
leaves every other point unchanged. -/
theorem select_amended (S : Finset CoordinatePoint) (p : CoordinatePoint) :
    (select p false S = if p ∈ S then ∅ else {p}) ∧
    (p ∈ select p true S ↔ p ∉ S) ∧
    (∀ q, q ≠ p → (q ∈ select p true S ↔ q ∈ S)) := by
  refine ⟨?_, ?_, ?_⟩
  · by_cases hp : p ∈ S <;> simp [select, hp]
  · by_cases hp : p ∈ S <;> simp [select, hp]
  · intro q hq
    by_cases hp : p ∈ S <;> simp [select, hp, hq, Finset.mem_erase]

/-- Witness for `select_amended` at S = {(0,0), (1,1)}, p = (0,0), q = (1,1). -/
theorem select_amended_witness :
    (select { x := 0, y := 0 } false
        ({ { x := 0, y := 0 }, { x := 1, y := 1 } } : Finset CoordinatePoint)
      = if ({ x := 0, y := 0 } : CoordinatePoint)
          ∈ ({ { x := 0, y := 0 }, { x := 1, y := 1 } } : Finset CoordinatePoint)
        then ∅ else { { x := 0, y := 0 } }) ∧
    (({ x := 1, y := 1 } : CoordinatePoint)
        ∈ select { x := 0, y := 0 } true
          ({ { x := 0, y := 0 }, { x := 1, y := 1 } } : Finset CoordinatePoint) ↔
      ({ x := 1, y := 1 } : CoordinatePoint)
        ∈ ({ { x := 0, y := 0 }, { x := 1, y := 1 } } : Finset CoordinatePoint)) :=
  ⟨(select_amended { { x := 0, y := 0 }, { x := 1, y := 1 } } { x := 0, y := 0 }).1,
   (select_amended { { x := 0, y := 0 }, { x := 1, y := 1 } } { x := 0, y := 0 }).2.2
      { x := 1, y := 1 } (by decide)⟩

/-- C9: in the sub-sample regime (pixels-per-point is 0 on both axes, i.e.
width_per_data / shown-extent-x = 0 and height_per_data / shown-extent-y = 0)
no destination pixel is ever flagged as boundary, so no boundary-selected or
boundary-unselected color is ever chosen for the rendered cell, for every
value of boundary_factor_min and boundary thickness: the render point of any
widget agrees with that of `m`, and the chosen color agrees for any widget
`m2` sharing only `m`'s background and drag state (its boundary colors,
boundary thickness and boundary_factor_min are arbitrary). -/
theorem render_point_subsample_no_boundary {Key Color : Type} [DecidableEq Key]
    (m m2 : ShowMultiMap Key Color) (shown : CoordinateRect)
    (width_per_data height_per_data row column : Nat)
    (hx : width_per_data / shown.delta.x = 0) (hy : height_per_data / shown.delta.y = 0)
    (gamma_multiply_half remove_alpha : Color → Color) (data : Data Color)
    (s : MultimapState Key)
    (hback : m2.background = m.background) (hdrag : m2.drag_area = m.drag_area) :
    (render_point m shown width_per_data height_per_data row column).is_boundary = false ∧
    render_point m2 shown width_per_data height_per_data row column
      = render_point m shown width_per_data height_per_data row column ∧
    update_color_choice gamma_multiply_half remove_alpha m2 data
        (render_point m shown width_per_data height_per_data row column) s
      = update_color_choice gamma_multiply_half remove_alpha m data
        (render_point m shown width_per_data height_per_data row column) s := by
  have hrp : ∀ mm : ShowMultiMap Key Color,
      render_point mm shown width_per_data height_per_data row column =
      { coordinate := shown.left_top.addVec
          { x := column * shown.delta.x / width_per_data,
            y := row * shown.delta.y / height_per_data },
        is_boundary := false } := by
    intro mm
    unfold render_point
    simp only [hx, hy]
    norm_num
  refine ⟨by rw [hrp m], by rw [hrp m2, hrp m], ?_⟩
  rw [hrp m]
  unfold update_color_choice
  rw [hback, hdrag]
  simp

/-- Witness for `render_point_subsample_no_boundary`: a 3×3 cell showing a
10×10 extent (pixels-per-point 0 on both axes) under the test widget `mTest`
and the differently-configured `mEmpty`. -/
theorem render_point_subsample_no_boundary_witness :
    (render_point mTest ⟨{ x := 0, y := 0 }, { x := 10, y := 10 }⟩ 3 3 1 2).is_boundary
      = false ∧
    render_point mEmpty ⟨{ x := 0, y := 0 }, { x := 10, y := 10 }⟩ 3 3 1 2
      = render_point mTest ⟨{ x := 0, y := 0 }, { x := 10, y := 10 }⟩ 3 3 1 2 ∧
    update_color_choice id id mEmpty (mkData { x := 0, y := 0 })
        (render_point mTest ⟨{ x := 0, y := 0 }, { x := 10, y := 10 }⟩ 3 3 1 2) sTest0
      = update_color_choice id id mTest (mkData { x := 0, y := 0 })
        (render_point mTest ⟨{ x := 0, y := 0 }, { x := 10, y := 10 }⟩ 3 3 1 2) sTest0 :=
  render_point_subsample_no_boundary mTest mEmpty
    ⟨{ x := 0, y := 0 }, { x := 10, y := 10 }⟩ 3 3 1 2 (by decide) (by decide)
    id id (mkData { x := 0, y := 0 }) sTest0 (by decide) rfl

theorem render_core_characterization {Key Color : Type} [DecidableEq Key]
    (m : ShowMultiMap Key Color) (width height : Nat) (s : MultimapState Key) :
    (render_core m width height s = .error .CountIsZero ↔ visibleData m s = []) ∧
    (render_core m width height s = .error .WidthSmallerThanColorBar ↔
      visibleData m s ≠ [] ∧ width < colorbar_reserved_width m) ∧
    render_core m width height s ≠ .error .NoData := by
  unfold render_core
  by_cases hv : (visibleData m s).length = 0
  · rw [if_pos hv]
    have hnil : visibleData m s = [] := List.length_eq_zero.mp hv
    simp [hnil]
  · rw [if_neg hv]
    have hne : visibleData m s ≠ [] := by
      intro h
      rw [h] at hv
      simp at hv
    by_cases hw : width ≥ colorbar_reserved_width m
    · rw [if_pos hw]
      refine ⟨by simp [hne], ?_, by simp⟩
      constructor
      · intro h
        simp at h
      · intro h
        exact absurd h.2 (by omega)
    · rw [if_neg hw]
      refine ⟨by simp [hne], ?_, by simp⟩
      constructor
      · intro _
        exact ⟨hne, by omega⟩
      · intro _
        rfl

/-- Counterexample to C3 as stated: with no datasets registered at all but a
shown rectangle already set (reachable via `home()`), render returns
CountIsZero — so "CountIsZero exactly when datasets exist but every dataset
is hidden" fails, datasets need not exist. -/
theorem render_errors_counterexample :
    (render mEmpty 20 20 sShown).2 = Except.error RenderProblem.CountIsZero ∧
    mEmpty.data = [] :=
  ⟨rfl, rfl⟩

/-- C3 as amended: NoData exactly when the shown rectangle is unset and no
datasets were ever registered; CountIsZero exactly when that is not the case
and the visible list is empty (whether or not datasets exist);
WidthSmallerThanColorBar exactly when the visible list is non-empty and the
reserved colorbar width exceeds the raster width; and when the shown
rectangle was unset and datasets exist it is set to the union bounding box of
the visible datasets before any further check. -/
theorem render_errors_amended {Key Color : Type} [DecidableEq Key]
    (m : ShowMultiMap Key Color) (width height : Nat) (s : MultimapState Key) :
    ((render m width height s).2 = .error .NoData ↔
      s.shown_rectangle = none ∧ m.data = []) ∧
    ((render m width height s).2 = .error .CountIsZero ↔
      ¬(s.shown_rectangle = none ∧ m.data = []) ∧ visibleData m s = []) ∧
    ((render m width height s).2 = .error .WidthSmallerThanColorBar ↔
      visibleData m s ≠ [] ∧ width < colorbar_reserved_width m) ∧
    ((render m width height s).1.shown_rectangle =
      match s.shown_rectangle with
      | some r => some r
      | none =>
        if m.data.isEmpty then none else some (home_rect m.data s.to_plot)) := by
  rcases hs : s.shown_rectangle with _ | r
  · rcases Classical.em (m.data = []) with hd | hd
    · have hred : render m width height s = (s, .error .NoData) := by
        unfold render
        rw [hs, if_pos (by simp [hd])]
      rw [hred]
      have hv : visibleData m s = [] := by simp [visibleData, hd]
      refine ⟨by simp [hd], by simp [hd, hv], by simp [hv], by simp only []; simp [hs, hd]⟩
    · have hred : render m width height s =
          ({ s with shown_rectangle := some (home_rect m.data s.to_plot) },
            render_core m width height
              { s with shown_rectangle := some (home_rect m.data s.to_plot) }) := by
        unfold render
        rw [hs, if_neg (by simp [hd])]
      rw [hred]
      have hchar := render_core_characterization m width height
        { s with shown_rectangle := some (home_rect m.data s.to_plot) }
      have hvv : visibleData m
          { s with shown_rectangle := some (home_rect m.data s.to_plot) }
          = visibleData m s := rfl
      rw [hvv] at hchar
      refine ⟨?_, ?_, hchar.2.1, by simp [hd]⟩
      · simp only []
        constructor
        · intro h
          exact absurd h hchar.2.2
        · intro h
          exact absurd h.2 hd
      · simp only []
        rw [hchar.1]
        constructor
        · intro hv2
          exact ⟨fun hcon => hd hcon.2, hv2⟩
        · intro h
          exact h.2
  · have hred : render m width height s = (s, render_core m width height s) := by
      unfold render
      rw [hs]
    rw [hred]
    have hchar := render_core_characterization m width height s
    refine ⟨?_, ?_, hchar.2.1, by simp only []; exact hs⟩
    · simp only []
      constructor
      · intro h
        exact absurd h hchar.2.2
      · intro h
        exact absurd h.1 (by simp)
    · simp only []
      rw [hchar.1]
      constructor
      · intro hv2
        exact ⟨fun hcon => absurd hcon.1 (by simp), hv2⟩
      · intro h
        exact h.2

/-- Witness for `render_errors_amended`: a widget with no datasets and an
already-set shown rectangle renders to CountIsZero. -/
theorem render_errors_amended_witness :
    (render mEmpty 20 20 sShown).2 = Except.error RenderProblem.CountIsZero :=
  (render_errors_amended mEmpty 20 20 sShown).2.1.mpr (by decide)

/-- Counterexample to C4 as stated: one dataset, hidden, no shown rectangle —
render fails with CountIsZero, yet the session state is changed: the shown
rectangle has been initialized before the failing check. -/
theorem render_state_counterexample :
    (render mHidden 20 20 sHidden).2 = Except.error RenderProblem.CountIsZero ∧
    sHidden.shown_rectangle = none ∧
    (render mHidden 20 20 sHidden).1.shown_rectangle
      = some (home_rect mHidden.data sHidden.to_plot) ∧
    (render mHidden 20 20 sHidden).1.shown_rectangle ≠ sHidden.shown_rectangle :=
  ⟨rfl, rfl, rfl, by decide⟩

/-- C4 as amended: a failing render leaves `to_plot` and `selected` exactly
as they were, and leaves `shown_rectangle` unchanged whenever it was already
set; but when it was unset and datasets exist, the failing render has
initialized it to the home rectangle. -/
theorem render_state_amended {Key Color : Type} [DecidableEq Key]
    (m : ShowMultiMap Key Color) (width height : Nat) (s : MultimapState Key)
    (e : RenderProblem) (herr : (render m width height s).2 = .error e) :
    (render m width height s).1.to_plot = s.to_plot ∧
    (render m width height s).1.selected = s.selected ∧
    (∀ r, s.shown_rectangle = some r →
      (render m width height s).1.shown_rectangle = some r) ∧
    (s.shown_rectangle = none → m.data ≠ [] →
      (render m width height s).1.shown_rectangle
        = some (home_rect m.data s.to_plot)) := by
  rcases hs : s.shown_rectangle with _ | r
  · rcases Classical.em (m.data = []) with hd | hd
    · have hred : render m width height s = (s, .error .NoData) := by
        unfold render
        rw [hs, if_pos (by simp [hd])]
      rw [hred]
      exact ⟨rfl, rfl, fun r2 h2 => absurd h2 (by simp),
        fun _ hd2 => absurd hd hd2⟩
    · have hred : render m width height s =
          ({ s with shown_rectangle := some (home_rect m.data s.to_plot) },
            render_core m width height
              { s with shown_rectangle := some (home_rect m.data s.to_plot) }) := by
        unfold render
        rw [hs, if_neg (by simp [hd])]
      rw [hred]
      exact ⟨rfl, rfl, fun r2 h2 => absurd h2 (by simp), fun _ _ => rfl⟩
  · have hred : render m width height s = (s, render_core m width height s) := by
      unfold render
      rw [hs]
    rw [hred]
    refine ⟨rfl, rfl, fun r2 h2 => ?_, fun h2 _ => absurd h2 (by simp)⟩
    rw [hs]
    exact h2

/-- Witness for `render_state_amended` at the empty widget with a set shown
rectangle. -/
theorem render_state_amended_witness :
    (render mEmpty 20 20 sShown).1.to_plot = sShown.to_plot ∧
    (render mEmpty 20 20 sShown).1.selected = sShown.selected ∧
    (∀ r, sShown.shown_rectangle = some r →
      (render mEmpty 20 20 sShown).1.shown_rectangle = some r) ∧
    (sShown.shown_rectangle = none → mEmpty.data ≠ [] →
      (render mEmpty 20 20 sShown).1.shown_rectangle
        = some (home_rect mEmpty.data sShown.to_plot)) :=
  render_state_amended mEmpty 20 20 sShown RenderProblem.CountIsZero rfl

/-- C1 (evaluation at the failing input): in the source's own test scenario —
`mTest` rendered at 66×23, shown rectangle lazily initialized to (0,0)–(6,6),
geometry 2×2 cells of 29×10 — `render` paints raster pixel (39, 0) via cell
(row 0, column 1) at in-cell position (row 0, column 8) with the non-boundary
data color '0' sourced from dataset key 1 at data coordinate (1, 0) (a
present coordinate, not the background '.'), while the hit-test at the same
raster pixel (39, 0) returns Pixel(1, (2, 0)) — a different coordinate — so
render and `convert_multimap2bitmap` desynchronize: the hit-test divides the
raster column by width_per_data alone, ignoring the boundary-between-data
thickness that `render` inserts between cells. -/
theorem render_hittest_desync :
    (render mTest 66 23 sTest0).2 = Except.ok geomTest ∧
    sTest1.shown_rectangle = some ⟨{ x := 0, y := 0 }, { x := 6, y := 6 }⟩ ∧
    render_cell_pixel id id mTest geomTest shownTest sTest1 0 1 0 8
      = some (1, { coordinate := { x := 1, y := 0 }, is_boundary := false }, '0') ∧
    (mkData { x := 1, y := 0 }).lookup { x := 1, y := 0 } = some '0' ∧
    mTest.background = '.' ∧
    render_raster_position mTest geomTest 0 1 0 8 = (39, 0) ∧
    convert_multimap2bitmap mTest { x := 39, y := 0 } 66 23 sTest1
      = MultiMapPosition.Pixel 1 { x := 2, y := 0 } ∧
    (MultiMapPosition.Pixel 1 { x := 2, y := 0 } : MultiMapPosition Nat)
      ≠ MultiMapPosition.Pixel 1 { x := 1, y := 0 } :=
  ⟨rfl, by decide, by decide, by decide, by decide, by decide, by decide, by decide⟩

end EguiHeatmap
